import Mathlib

/-!
Verification of `app.py` — FDEP Flood Intelligence Platform.

Shallow embedding of the single-file Streamlit dashboard. Pure data and
control flow of the script are translated into Lean definitions; the external
collaborators (Earth Engine image algebra, the geocoder, the chat endpoint)
are modelled as parameters or oracle inputs, with the remote operations the
script composes (`focal_mean`, `divide`, `lt`, `updateMask`, `selfMask`,
`multiply`, `reduceRegion`) embedded op by op over rational-valued images.
-/

namespace FDEP

/-! Calendar dates (models `pandas.to_datetime(x).date()` on the
ISO `YYYY-MM-DD` strings the archive uses, app.py line 72) -/

structure Date where
  year : Nat
  month : Nat
  day : Nat
deriving DecidableEq, Repr

/-- Lexicographic (calendar) strict order on dates. -/
def Date.lt (a b : Date) : Bool :=
  a.year < b.year ∨ (a.year = b.year ∧
    (a.month < b.month ∨ (a.month = b.month ∧ a.day < b.day)))

/-- Lexicographic (calendar) order on dates. -/
def Date.le (a b : Date) : Bool :=
  Date.lt a b ∨ a = b

/-- Parse a run of decimal digits; `none` on empty or non-digit input. -/
def parseNat (cs : List Char) : Option Nat :=
  if cs.isEmpty then none
  else cs.foldl
    (fun acc c =>
      acc.bind fun n => if c.isDigit then some (n * 10 + (c.toNat - 48)) else none)
    (some 0)

/-- Split a character list into the dash-separated groups. -/
def splitDash : List Char → List (List Char)
  | [] => [[]]
  | c :: cs =>
    if c = '-' then [] :: splitDash cs
    else
      match splitDash cs with
      | [] => [[c]]
      | g :: gs => (c :: g) :: gs

/-- Parse an ISO `YYYY-MM-DD` date string. Models the behaviour of
`pd.to_datetime(x).date()` (app.py line 72) on the date-string format used
throughout the flood archive. -/
def parseDate (s : String) : Option Date :=
  match splitDash s.toList with
  | [y, m, d] =>
    (parseNat y).bind fun yn =>
      (parseNat m).bind fun mn =>
        (parseNat d).bind fun dn =>
          if 1 ≤ mn ∧ mn ≤ 12 ∧ 1 ≤ dn ∧ dn ≤ 31 then some ⟨yn, mn, dn⟩ else none
  | _ => none

/-- Two-digit zero padding for month/day of an ISO date. -/
def pad2 (n : Nat) : String :=
  if n < 10 then "0" ++ toString n else toString n

/-- Print a date back in the ISO form used by the archive. -/
def isoOf (d : Date) : String :=
  toString d.year ++ "-" ++ pad2 d.month ++ "-" ++ pad2 d.day

/-! The flood archive (app.py lines 34-57) -/

/-- One entry of the archive: latitude, longitude and the four date strings
`[before_start, before_end, after_start, after_end]`. -/
structure EventParams where
  lat : ℚ
  lon : ℚ
  dates : List String
deriving DecidableEq, Repr

/-- The event "database" of app.py lines 34-57, year → event name → params. -/
def flood_archive : List (String × List (String × EventParams)) :=
  [ ("2024",
     [ ("San Diego Flash Floods (Jan)",
        ⟨32.71, -117.16, ["2023-12-01", "2024-01-15", "2024-01-22", "2024-01-30"]⟩),
       ("Houston Floods (May)",
        ⟨29.76, -95.36, ["2024-04-01", "2024-04-15", "2024-05-02", "2024-05-10"]⟩) ]),
    ("2023",
     [ ("Fort Lauderdale Flash Flood (Apr)",
        ⟨26.12, -80.14, ["2023-03-01", "2023-04-01", "2023-04-13", "2023-04-20"]⟩),
       ("Vermont Floods (Jul)",
        ⟨44.26, -72.57, ["2023-06-01", "2023-07-01", "2023-07-11", "2023-07-20"]⟩),
       ("Libya Dam Collapse (Sep)",
        ⟨32.76, 22.63, ["2023-08-01", "2023-09-01", "2023-09-12", "2023-09-20"]⟩) ]),
    ("2022",
     [ ("Hurricane Ian (Florida)",
        ⟨26.64, -81.87, ["2022-09-01", "2022-09-15", "2022-09-29", "2022-10-05"]⟩),
       ("Pakistan Floods (Sindh)",
        ⟨26.90, 68.10, ["2022-08-01", "2022-08-10", "2022-08-20", "2022-08-30"]⟩),
       ("Yellowstone Floods (Jun)",
        ⟨45.03, -110.70, ["2022-05-01", "2022-06-01", "2022-06-13", "2022-06-25"]⟩) ]),
    ("2021",
     [ ("Hurricane Ida (Louisiana)",
        ⟨29.59, -90.71, ["2021-08-01", "2021-08-20", "2021-08-30", "2021-09-10"]⟩),
       ("Germany/Belgium Floods",
        ⟨50.47, 6.85, ["2021-06-01", "2021-07-10", "2021-07-15", "2021-07-25"]⟩) ]),
    ("2020",
     [ ("Hurricane Sally (Pensacola)",
        ⟨30.42, -87.21, ["2020-08-15", "2020-09-10", "2020-09-17", "2020-09-25"]⟩),
       ("Midland Dam Failure (Michigan)",
        ⟨43.61, -84.22, ["2020-05-01", "2020-05-15", "2020-05-20", "2020-05-30"]⟩) ]) ]

/-- Line 70: `flood_archive[selected_year][selected_event_name]`, as a keyed
lookup over the archive. -/
def lookupEvent (year name : String) : Option EventParams :=
  (flood_archive.lookup year).bind fun events => events.lookup name

/-- The parameters the sidebar loads for the selected event:
`lat, lon = params["lat"], params["lon"]` and
`d = [pd.to_datetime(x).date() for x in params["dates"]]`
(app.py lines 70-72). -/
structure LoadedParams where
  lat : ℚ
  lon : ℚ
  d : List (Option Date)
deriving DecidableEq, Repr

/-- Load the parameters of the selected event (app.py lines 70-72). -/
def loadParams (year name : String) : Option LoadedParams :=
  (lookupEvent year name).map fun p => ⟨p.lat, p.lon, p.dates.map parseDate⟩

/-- A date string parses and prints back to itself, pinning the parsed
calendar date to the unique one the string denotes. -/
def dateRoundTrips (s : String) : Bool :=
  match parseDate s with
  | some dt => isoOf dt == s
  | none => false

/-- The before range precedes the after range:
`dates[0] < dates[1]`, `dates[1] ≤ dates[2]`, `dates[2] < dates[3]`
once the four strings are parsed as calendar dates. -/
def datesOrdered (ds : List String) : Bool :=
  match ds.map parseDate with
  | [some d0, some d1, some d2, some d3] =>
    Date.lt d0 d1 && Date.le d1 d2 && Date.lt d2 d3
  | _ => false

/-! Earth Engine image algebra (the remote operations composed by
app.py lines 118-133, embedded op by op; `none` = masked pixel) -/

/-- A multi-band image over a pixel type: band name → optional value. -/
def MImage (α : Type) : Type := α → String → Option ℚ

/-- A single-band image (the result of `select`). -/
def SImage (α : Type) : Type := α → Option ℚ

variable {α : Type}

/-- Band-wise ratio `a.divide(b)`, masked where either operand is masked. -/
def MImage.divide (a b : MImage α) : MImage α :=
  fun p band =>
    match a p band, b p band with
    | some x, some y => some (x / y)
    | _, _ => none

/-- Band selection `img.select(band)`. -/
def MImage.select (a : MImage α) (band : String) : SImage α :=
  fun p => a p band

/-- Thresholding `img.lt(t)`: boolean image, 1 where the value is below `t`,
0 elsewhere; masked pixels stay masked. -/
def SImage.lt (a : SImage α) (t : ℚ) : SImage α :=
  fun p => (a p).map fun v => if v < t then 1 else 0

/-- Thresholding `img.gt(t)`: boolean image, 1 where the value is above `t`. -/
def SImage.gt (a : SImage α) (t : ℚ) : SImage α :=
  fun p => (a p).map fun v => if t < v then 1 else 0

/-- Masking `a.updateMask(m)`: keep a pixel only where the mask is unmasked
and nonzero. -/
def SImage.updateMask (a m : SImage α) : SImage α :=
  fun p =>
    match m p with
    | some v => if v = 0 then none else a p
    | none => none

/-- Masking `a.selfMask()`: mask out the zero-valued pixels. -/
def SImage.selfMask (a : SImage α) : SImage α :=
  fun p =>
    match a p with
    | some v => if v = 0 then none else some v
    | none => none

/-- Multiplication `a.multiply(w)` against a per-pixel weight image
(`ee.Image.pixelArea()`). -/
def SImage.multiply (a : SImage α) (w : α → ℚ) : SImage α :=
  fun p => (a p).map fun v => v * w p

/-- Region reduction `reduceRegion(ee.Reducer.sum(), roi, 10)`: sum of the
unmasked values
over the pixels of the region (masked pixels contribute nothing). -/
def SImage.reduceSum (a : SImage α) (roi : List α) : ℚ :=
  (roi.map fun p => (a p).getD 0).sum

/-- The `getInfo()` dictionary returned by `reduceRegion`, keyed by the
band name of the image. -/
def reduceRegionDict (band : String) (a : SImage α) (roi : List α) :
    String → Option ℚ :=
  fun k => if k = band then some (a.reduceSum roi) else none

/-! The radar change-detection expression (app.py lines 123-133).
`focal_mean` is an Earth Engine operator evaluated remotely; it enters the
embedding as the parameter `fm`, applied at the radius the script passes. -/

/-- Line 123: `diff` divides the focal-mean-smoothed after composite by the
focal-mean-smoothed before composite, radius 50 passed to both calls. -/
def diff (fm : ℚ → MImage α → MImage α) (before after : MImage α) : MImage α :=
  MImage.divide (fm 50 after) (fm 50 before)

/-- Line 124: `flood_mask` selects band VV of `diff` and thresholds it with
`lt(0.8)`. -/
def flood_mask (fm : ℚ → MImage α → MImage α) (before after : MImage α) :
    SImage α :=
  SImage.lt ((diff fm before after).select "VV") 0.8

/-- Line 125: `flood_final` is `flood_mask` masked by `gt(-15)` of band VV of
the before composite, then self-masked. -/
def flood_final (fm : ℚ → MImage α → MImage α) (before after : MImage α) :
    SImage α :=
  SImage.selfMask
    (SImage.updateMask (flood_mask fm before after)
      (SImage.gt (before.select "VV") (-15)))

/-- Line 132: `area` multiplies `flood_final` by `ee.Image.pixelArea()` and
region-sums it over the ROI; the resulting dictionary
is keyed by the band name VV inherited through the `select` call. -/
def flood_area_dict (fm : ℚ → MImage α → MImage α) (before after : MImage α)
    (pixelArea : α → ℚ) (roi : List α) : String → Option ℚ :=
  reduceRegionDict "VV" ((flood_final fm before after).multiply pixelArea) roi

/-- Line 102: `flooded_ha` starts at 0 before any sensor branch runs. -/
def flooded_ha_init : ℚ := 0

/-- Line 133: `flooded_ha` is the VV entry of the returned dictionary (default
0) divided by 10000, as a function of that dictionary. -/
def flooded_ha_of (area : String → Option ℚ) : ℚ :=
  (area "VV").getD 0 / 10000

/-- The whole radar statistic: area dictionary fed into line 133. -/
def flooded_ha_radar (fm : ℚ → MImage α → MImage α) (before after : MImage α)
    (pixelArea : α → ℚ) (roi : List α) : ℚ :=
  flooded_ha_of (flood_area_dict fm before after pixelArea roi)

/-! Geocoding (app.py imports `Nominatim` at line 6 and reads a
location name at line 76) -/

/-- Modelled from the spec: the geocoding step itself is not present in
`src/app.py` — only the `geopy.geocoders.Nominatim` import (line 6) and the
`location_query` text input (line 76) remain of it. Following the spec, in its
error-handling design a geocode of the user-entered location name that
returns no result falls back to the hard-coded default location. -/
def geocodeOrDefault (result : Option (ℚ × ℚ)) (defaultCoords : ℚ × ℚ) :
    ℚ × ℚ :=
  match result with
  | some c => c
  | none => defaultCoords

/-! The analysis run (app.py lines 95-160), with the outcomes of the
remote calls supplied by an oracle -/

/-- The sensor radio button (app.py line 85). -/
inductive Sensor
  | radar
  | optical
deriving DecidableEq, Repr

/-- A UI notice emitted during the run (`st.toast`, `st.warning`,
`st.error`, `st.success`). -/
inductive Notice
  | toast : String → Notice
  | warning : String → Notice
  | error : String → Notice
  | success : String → Notice
deriving DecidableEq, Repr

/-- Whether a notice surfaces a failure (warning or error). -/
def Notice.isWarnOrError : Notice → Bool
  | .warning _ => true
  | .error _ => true
  | _ => false

/-- Outcomes of the remote calls a run makes: whether each raises, and the
dictionary the area reduction returns when it succeeds. -/
structure RemoteOracle where
  fdepFails : Bool
  satFails : Bool
  dlFails : Bool
  areaDict : String → Option ℚ

/-- What a completed run shows: map layers added, notices emitted, the
flooded-area statistic, whether a download link was offered and whether the
flood-extent success message was shown. -/
structure RunOutput where
  layers : List String
  notices : List Notice
  floodedHa : ℚ
  downloadOffered : Bool
  successShown : Bool
deriving DecidableEq, Repr

/-- The warning of app.py line 114. -/
def fdepFailMsg : String :=
  "Could not connect to FDEP Map Direct Server. Showing standard map."

/-- The toast of app.py line 112. -/
def fdepOkMsg : String := "FDEP Data Layer Loaded Successfully!"

/-- The FDEP overlay block (app.py lines 107-114): layer added and toast on
success, warning on failure — the one remote call wrapped in `try/except`
with a message. -/
def fdepStep (showFdep fdepFails : Bool) : List String × List Notice :=
  if showFdep then
    if fdepFails then ([], [Notice.warning fdepFailMsg])
    else (["FDEP Conservation Lands"], [Notice.toast fdepOkMsg])
  else ([], [])

/-- The analysis run (app.py lines 95-160). The Earth Engine
processing and area reduction of the radar branch (lines 118-133) run outside
any `try/except`,
so a failure there propagates (`Except.error`); the download-URL block
(lines 136-145) catches its failure with a bare `pass`; the success message
(lines 159-160) and the three radar layers are only produced on the radar
path. The optical branch (lines 149-154) only adds the two optical layers;
its only synchronous remote exchange is the map rendering, so the
area-reduction oracle plays no part there. -/
def runAnalysis (sensor : Sensor) (showFdep : Bool) (o : RemoteOracle) :
    Except Unit RunOutput :=
  let fd := fdepStep showFdep o.fdepFails
  match sensor with
  | .radar =>
    if o.satFails then Except.error ()
    else
      Except.ok
        { layers := fd.1 ++ ["Before Storm", "After Storm", "FLOOD DETECTED"],
          notices := fd.2 ++ [Notice.success "Detected Flood Extent"],
          floodedHa := flooded_ha_of o.areaDict,
          downloadOffered := !o.dlFails,
          successShown := true }
  | .optical =>
    Except.ok
      { layers := fd.1 ++ ["Before (Optical)", "After (Optical)"],
        notices := fd.2,
        floodedHa := flooded_ha_init,
        downloadOffered := false,
        successShown := false }

/-- The chat context string of app.py line 173. -/
def buildContext (event year : String) (ha : ℚ) (prompt : String) : String :=
  "Event: " ++ event ++ " (" ++ year ++ "). Flooded Area: " ++ toString ha
    ++ " ha. User: " ++ prompt

/-! The chat transcript (app.py lines 166-182) -/

/-- One turn of the transcript: the `{"role": ..., "content": ...}`
dictionaries of app.py lines 171 and 180. -/
structure ChatMsg where
  role : String
  content : String
deriving DecidableEq, Repr

/-- Line 166: the transcript starts empty. -/
def initMessages : List ChatMsg := []

/-- Submitting a prompt (app.py lines 169-182): the user turn is appended
first (line 171); the outcome of the chat-completion call is `some reply` on
success — appending the assistant turn (line 180) — and `none` when the
call raises, in which case the `except` branch leaves the transcript
untouched. -/
def submitPrompt (messages : List ChatMsg) (prompt : String)
    (reply : Option String) : List ChatMsg :=
  let withUser := messages ++ [⟨"user", prompt⟩]
  match reply with
  | some r => withUser ++ [⟨"assistant", r⟩]
  | none => withUser

/-- The notices the chat block emits: `st.error` on a failed call
(app.py line 182), nothing otherwise. -/
def chatNotices (reply : Option String) : List Notice :=
  match reply with
  | some _ => []
  | none => [Notice.error "AI Error"]

/-- A transcript entry has one of the two roles ever written
(app.py lines 171 and 180). -/
def validMsg (m : ChatMsg) : Bool :=
  m.role == "user" || m.role == "assistant"

/-! The error-handling claim (spec section 7) as a proposition -/

/-- The claim that every remote call made during a run is wrapped so that an
exception raised by it is caught (the run still completes) and a
warning/error notice is shown: instantiated for the FDEP layer load, the
satellite processing / area reduction, and the download-URL issuance. -/
def remoteFailuresAllSurfaced : Prop :=
  ∀ (sensor : Sensor) (showFdep : Bool) (o : RemoteOracle),
    ∃ out, runAnalysis sensor showFdep o = Except.ok out ∧
      (showFdep = true → o.fdepFails = true →
        ∃ n ∈ out.notices, n.isWarnOrError = true) ∧
      (sensor = Sensor.radar → o.dlFails = true →
        ∃ n ∈ out.notices, n.isWarnOrError = true)

/-! Witness instances for the image theorems: a one-pixel world, an identity
smoother and constant composites. -/

/-- An identity focal smoother for concrete evaluation. -/
def wfm : ℚ → MImage Unit → MImage Unit := fun _ img => img

/-- A constant before composite, VV backscatter -10 dB everywhere. -/
def wbefore : MImage Unit := fun _ _ => some (-10)

/-- A constant after composite, VV backscatter -20 dB everywhere. -/
def wafter : MImage Unit := fun _ _ => some (-20)

/-- A constant pixel-size image, 100 square metres per pixel. -/
def wpa : Unit → ℚ := fun _ => 100

/-- The smoothed after values of the witness world. -/
def wsa : Unit → ℚ := fun _ => -20

/-- The smoothed before values of the witness world. -/
def wsb : Unit → ℚ := fun _ => -10

/-- A concrete oracle in which only the satellite processing and area
reduction raise. -/
def satFailOracle : RemoteOracle := ⟨false, true, false, fun _ => none⟩

/-! Theorems -/

/-- Pointwise evaluation of the radar flood expression: where the smoothed
composites and the raw before composite are unmasked, the final mask is 1
exactly when the smoothed after/before ratio is below 0.8 and the before VV
backscatter exceeds -15 dB, and the pixel is masked otherwise. -/
theorem flood_final_eval (fm : ℚ → MImage α → MImage α)
    (before after : MImage α) (p : α) (x y v : ℚ)
    (hx : fm 50 after p "VV" = some x) (hy : fm 50 before p "VV" = some y)
    (hv : before p "VV" = some v) :
    flood_final fm before after p =
      if x / y < 0.8 ∧ -15 < v then some 1 else none := by
  unfold flood_final flood_mask diff SImage.selfMask SImage.updateMask
    SImage.lt SImage.gt MImage.select MImage.divide
  simp only [hx, hy, hv, Option.map_some]
  by_cases h1 : x / y < 0.8 <;> by_cases h2 : (-15 : ℚ) < v <;>
    simp [h1, h2]

/-- Summing an if-else over a list is summing over the filtered list. -/
theorem sum_map_ite (f : α → Bool) (g : α → ℚ) (l : List α) :
    (l.map fun p => if f p then g p else 0).sum = ((l.filter f).map g).sum := by
  induction l with
  | nil => rfl
  | cons h t ih => by_cases hf : f h <;> simp [List.filter_cons, hf, ih]

/-- C1: the Sentinel-1 change-detection expression uses exactly the documented
constants. At every unmasked pixel the final flood mask flags the pixel (value
1) precisely when the ratio of the smoothed after composite to the smoothed
before composite is below 0.8 and the permanent-water mask admits it, i.e. the
before-composite VV backscatter exceeds -15 dB; and the expression consults
the focal smoother only at radius 50, so any two smoothers agreeing at radius
50 give the same flood mask. -/
theorem radar_expression_constants {α : Type} (fm fm' : ℚ → MImage α → MImage α)
    (before after : MImage α) (p : α) (x y v : ℚ)
    (hx : fm 50 after p "VV" = some x) (hy : fm 50 before p "VV" = some y)
    (hv : before p "VV" = some v) (h50 : fm 50 = fm' 50) :
    (flood_final fm before after p = some 1 ↔ (x / y < 0.8 ∧ -15 < v)) ∧
    flood_final fm before after = flood_final fm' before after := by
  constructor
  · rw [flood_final_eval fm before after p x y v hx hy hv]
    by_cases h1 : x / y < 0.8 ∧ (-15 : ℚ) < v <;> simp [h1]
  · unfold flood_final flood_mask diff
    rw [h50]

/-- Witness for C1 at a concrete one-pixel world. -/
theorem radar_expression_constants_witness :
    (flood_final wfm wbefore wafter () = some 1 ↔
      ((-20 : ℚ) / (-10) < 0.8 ∧ (-15 : ℚ) < -10)) ∧
    flood_final wfm wbefore wafter = flood_final wfm wbefore wafter :=
  radar_expression_constants wfm wfm wbefore wafter () (-20) (-10) (-10)
    rfl rfl rfl rfl

/-- C8: the radar change-detection computation follows the documented
five-step structure — divide the two smoothed backscatter composites,
threshold the ratio, mask by the fixed backscatter level to exclude permanent
water, and sum the pixel areas over the region of interest: the reported
statistic equals the summed area of exactly the pixels whose smoothed ratio is
below the threshold and whose before backscatter clears the water level,
divided by 10000. -/
theorem radar_area_pipeline {α : Type} (fm : ℚ → MImage α → MImage α)
    (before after : MImage α) (pa : α → ℚ) (roi : List α) (sa sb bv : α → ℚ)
    (hx : ∀ p, fm 50 after p "VV" = some (sa p))
    (hy : ∀ p, fm 50 before p "VV" = some (sb p))
    (hv : ∀ p, before p "VV" = some (bv p)) :
    flooded_ha_radar fm before after pa roi =
      ((roi.filter fun p =>
        decide (sa p / sb p < 0.8) && decide (-15 < bv p)).map pa).sum / 10000 := by
  have hpt : ∀ p, ((SImage.multiply (flood_final fm before after) pa) p).getD 0
      = if decide (sa p / sb p < 0.8) && decide (-15 < bv p) then pa p else 0 := by
    intro p
    unfold SImage.multiply
    rw [flood_final_eval fm before after p (sa p) (sb p) (bv p) (hx p) (hy p) (hv p)]
    by_cases h1 : sa p / sb p < 0.8 <;> by_cases h2 : (-15 : ℚ) < bv p <;>
      simp [h1, h2]
  unfold flooded_ha_radar flooded_ha_of flood_area_dict reduceRegionDict
    SImage.reduceSum
  simp only [if_pos, Option.getD_some]
  rw [List.map_congr_left fun p _ => hpt p, sum_map_ite]

/-- Witness for C8 at a concrete one-pixel region. -/
theorem radar_area_pipeline_witness :
    flooded_ha_radar wfm wbefore wafter wpa [()] =
      (([()].filter fun p =>
        decide (wsa p / wsb p < 0.8) && decide (-15 < wsb p)).map wpa).sum / 10000 :=
  radar_area_pipeline wfm wbefore wafter wpa [()] wsa wsb wsb
    (fun _ => rfl) (fun _ => rfl) (fun _ => rfl)

/-- C2: for every year and event name present in the flood archive, selecting
that event populates the latitude, longitude and the four dates with exactly
the values declared for that entry, each date string parsed to the calendar
date it denotes (the parse succeeds and prints back to the declared string). -/
theorem event_selection_populates_params :
    ∀ ye ∈ flood_archive, ∀ ev ∈ ye.2,
      lookupEvent ye.1 ev.1 = some ev.2 ∧
      loadParams ye.1 ev.1 =
        some ⟨ev.2.lat, ev.2.lon, ev.2.dates.map parseDate⟩ ∧
      ∀ s ∈ ev.2.dates, dateRoundTrips s = true := by
  intro ye hye ev hev
  fin_cases hye <;> fin_cases hev <;> exact ⟨rfl, rfl, by decide⟩

/-- Witness for C2 at the first archive entry. -/
theorem event_selection_populates_params_witness :
    lookupEvent "2024" "San Diego Flash Floods (Jan)" =
      some ⟨32.71, -117.16,
        ["2023-12-01", "2024-01-15", "2024-01-22", "2024-01-30"]⟩ ∧
    loadParams "2024" "San Diego Flash Floods (Jan)" =
      some ⟨32.71, -117.16,
        (["2023-12-01", "2024-01-15", "2024-01-22", "2024-01-30"] :
          List String).map parseDate⟩ ∧
    ∀ s ∈ (["2023-12-01", "2024-01-15", "2024-01-22", "2024-01-30"] :
      List String), dateRoundTrips s = true :=
  event_selection_populates_params _ (List.mem_cons_self _ _) _
    (List.mem_cons_self _ _)

/-- C3: for every entry of the flood archive the configured before range
precedes the configured after range — the four date strings parse and satisfy
dates 0 < 1, 1 ≤ 2 and 2 < 3 as calendar dates. -/
theorem archive_dates_ordered :
    ∀ ye ∈ flood_archive, ∀ ev ∈ ye.2, datesOrdered ev.2.dates = true := by
  decide

/-- Witness for C3 at the first archive entry. -/
theorem archive_dates_ordered_witness :
    datesOrdered ["2023-12-01", "2024-01-15", "2024-01-22", "2024-01-30"] = true :=
  archive_dates_ordered _ (List.mem_cons_self _ _) _ (List.mem_cons_self _ _)

/-- C4: a geocoding lookup of the user-entered location name that returns no
result falls back to the hard-coded default location rather than failing
(modelled from the spec; see `geocodeOrDefault`). -/
theorem geocode_fallback (r : Option (ℚ × ℚ)) (c : ℚ × ℚ) (h : r = none) :
    geocodeOrDefault r c = c := by
  subst h; rfl

/-- Witness for C4 at an empty geocoder result. -/
theorem geocode_fallback_witness :
    geocodeOrDefault none (29.76, -95.36) = (29.76, -95.36) :=
  geocode_fallback none _ rfl

/-- C5: `flooded_ha` is initialized to 0 before any sensor branch runs, and
the statistic computed from the area-reduction dictionary is the VV value
divided by 10000 when present and 0 when the VV key is missing. -/
theorem flooded_ha_fallback (area : String → Option ℚ) :
    flooded_ha_init = 0 ∧
    (area "VV" = none → flooded_ha_of area = 0) ∧
    ∀ v, area "VV" = some v → flooded_ha_of area = v / 10000 := by
  refine ⟨rfl, fun h => ?_, fun v h => ?_⟩
  · simp [flooded_ha_of, h]
  · simp [flooded_ha_of, h]

/-- Witness for C5 at a dictionary with no VV key. -/
theorem flooded_ha_fallback_witness : flooded_ha_of (fun _ => none) = 0 :=
  (flooded_ha_fallback (fun _ => none)).2.1 rfl

/-- C6 counterexample: it is not the case that every remote-call failure is
caught and surfaced — with an oracle in which only the satellite processing
and area reduction raise, the radar run does not complete at all, so the
exception is not caught. -/
theorem remote_failures_not_all_surfaced : ¬ remoteFailuresAllSurfaced := by
  intro h
  obtain ⟨out, hout, -, -⟩ := h Sensor.radar false satFailOracle
  simp [runAnalysis, satFailOracle] at hout

/-- C6 amended: the FDEP layer-load failure is caught and surfaced as a
warning and the chat-completion failure is caught and surfaced as an error
message; the download-URL failure is caught but silently ignored — the run
completes with the same notices as a failure-free run and merely no download
link; and a satellite-processing / area-reduction failure is not caught at
all — the run aborts. -/
theorem remote_failure_handling (showFdep : Bool) (o : RemoteOracle) :
    (showFdep = true → o.fdepFails = true → o.satFails = false →
      ∃ out, runAnalysis Sensor.radar showFdep o = Except.ok out ∧
        Notice.warning fdepFailMsg ∈ out.notices) ∧
    (o.satFails = false →
      ∃ out out',
        runAnalysis Sensor.radar showFdep { o with dlFails := true } =
          Except.ok out ∧
        runAnalysis Sensor.radar showFdep { o with dlFails := false } =
          Except.ok out' ∧
        out.notices = out'.notices ∧
        out.downloadOffered = false ∧ out'.downloadOffered = true) ∧
    (o.satFails = true →
      runAnalysis Sensor.radar showFdep o = Except.error ()) ∧
    (Notice.error "AI Error" ∈ chatNotices none ∧
      ∀ r, chatNotices (some r) = []) := by
  obtain ⟨f, s, d, a⟩ := o
  refine ⟨?_, ?_, ?_, ?_⟩
  · intro h1 h2 h3
    subst h1; subst h2; subst h3
    exact ⟨_, rfl, by simp [runAnalysis, fdepStep]⟩
  · intro hs
    subst hs
    exact ⟨_, _, rfl, rfl, rfl, rfl, rfl⟩
  · intro hs
    subst hs
    rfl
  · exact ⟨List.mem_cons_self _ _, fun r => rfl⟩

/-- Witness for the amended C6 at a concrete failing FDEP load. -/
theorem remote_failure_handling_witness :
    ∃ out, runAnalysis Sensor.radar true ⟨true, false, false, fun _ => none⟩ =
        Except.ok out ∧
      Notice.warning fdepFailMsg ∈ out.notices :=
  (remote_failure_handling true ⟨true, false, false, fun _ => none⟩).1 rfl rfl rfl

/-- C7: submitting a prompt appends the user turn first and, when the
chat-completion call fails, the transcript equals the prior transcript plus
exactly that one user turn, all earlier turns unchanged and in order; on
success exactly one assistant turn is appended immediately after the user
turn. -/
theorem transcript_ordering (ms : List ChatMsg) (p : String) :
    submitPrompt ms p none = ms ++ [⟨"user", p⟩] ∧
    ∀ r, submitPrompt ms p (some r) =
      ms ++ [⟨"user", p⟩, ⟨"assistant", r⟩] :=
  ⟨rfl, fun r => by simp [submitPrompt]⟩

/-- C10: every message in the initial transcript (there are none) and every
message after any submission has role user or assistant with string content,
and the transcript only ever grows by appending at the end — no existing turn
is removed or modified. -/
theorem transcript_invariant :
    (∀ m ∈ initMessages, validMsg m = true) ∧
    ∀ ms p r, (∀ m ∈ ms, validMsg m = true) →
      ((∀ m ∈ submitPrompt ms p r, validMsg m = true) ∧
        ∃ tail, submitPrompt ms p r = ms ++ tail) := by
  constructor
  · intro m hm
    cases hm
  · intro ms p r h
    constructor
    · intro m hm
      cases r with
      | none =>
        simp only [submitPrompt, List.mem_append, List.mem_singleton] at hm
        rcases hm with hm | hm
        · exact h m hm
        · subst hm; rfl
      | some rep =>
        simp only [submitPrompt, List.append_assoc, List.mem_append,
          List.mem_cons, List.mem_singleton, List.not_mem_nil, or_false] at hm
        rcases hm with hm | hm | hm
        · exact h m hm
        · subst hm; rfl
        · subst hm; rfl
    · cases r with
      | none => exact ⟨_, rfl⟩
      | some rep =>
        exact ⟨[⟨"user", p⟩, ⟨"assistant", rep⟩], by simp [submitPrompt]⟩

/-- Witness for C10 at a concrete successful submission from the empty
transcript. -/
theorem transcript_invariant_witness :
    (∀ m ∈ submitPrompt initMessages "status" (some "ok"), validMsg m = true) ∧
    ∃ tail, submitPrompt initMessages "status" (some "ok") =
      initMessages ++ tail :=
  transcript_invariant.2 initMessages "status" (some "ok") transcript_invariant.1

/-- C9: when the Sentinel-2 (Optical) sensor is selected the flooded-area
statistic is never computed or displayed — the run keeps the initial 0, adds
no flood-mask layer, offers no download link, shows no success notice, and
any chat context built afterwards reports the same flooded area as one built
with 0. -/
theorem optical_no_flood_stat (showFdep : Bool) (o : RemoteOracle)
    (out : RunOutput)
    (h : runAnalysis Sensor.optical showFdep o = Except.ok out) :
    out.floodedHa = 0 ∧
    "FLOOD DETECTED" ∉ out.layers ∧
    out.downloadOffered = false ∧
    out.successShown = false ∧
    (∀ s, Notice.success s ∉ out.notices) ∧
    ∀ ev yr pr, buildContext ev yr out.floodedHa pr = buildContext ev yr 0 pr := by
  obtain ⟨f, s, d, a⟩ := o
  cases showFdep <;> cases f <;>
    (simp only [runAnalysis, fdepStep, Bool.false_eq_true, if_false, if_true,
      Except.ok.injEq, List.nil_append] at h) <;>
    subst h <;>
    refine ⟨rfl, by decide, rfl, rfl, fun s hs => ?_, fun ev yr pr => rfl⟩ <;>
    simp at hs

/-- Witness for C9 at a concrete optical run. -/
theorem optical_no_flood_stat_witness :
    (⟨["Before (Optical)", "After (Optical)"], [], 0, false, false⟩ :
        RunOutput).floodedHa = 0 ∧
    "FLOOD DETECTED" ∉ (⟨["Before (Optical)", "After (Optical)"], [], 0, false,
        false⟩ : RunOutput).layers ∧
    (⟨["Before (Optical)", "After (Optical)"], [], 0, false, false⟩ :
        RunOutput).downloadOffered = false ∧
    (⟨["Before (Optical)", "After (Optical)"], [], 0, false, false⟩ :
        RunOutput).successShown = false ∧
    (∀ s, Notice.success s ∉ (⟨["Before (Optical)", "After (Optical)"], [], 0,
        false, false⟩ : RunOutput).notices) ∧
    ∀ ev yr pr, buildContext ev yr
        (⟨["Before (Optical)", "After (Optical)"], [], 0, false, false⟩ :
          RunOutput).floodedHa pr = buildContext ev yr 0 pr :=
  optical_no_flood_stat false ⟨false, false, false, fun _ => none⟩ _ rfl

end FDEP
